import Mathlib

/-!
Verification of the inference-session lifecycle and generation loop of the
llama JNI bridge (app/src/main/cpp/llama_jni.cpp). The native code is embedded
shallowly: the LlamaContext struct becomes a Lean structure, the opaque llama
runtime becomes an oracle record of functions, and every call into the runtime
is recorded as an Event so that resource-release and decode-submission
behaviour is observable.
-/

namespace LlamaJni

/-- LLAMA_DEFAULT_SEED from llama.h (0xFFFFFFFF). -/
def LLAMA_DEFAULT_SEED : Nat := 4294967295

/-- Default temperature hard-coded in nativeLoadModel (0.7f), the rational
seven tenths. -/
def defaultTemp : Rat := ⟨7, 10, by decide, by decide⟩

/-- A sampler chain as built by llama_sampler_chain_init followed by the
temperature stage and the default-seeded dist stage. The handle is the
allocation identity returned by the runtime. -/
structure Sampler where
  handle : Nat
  temp : Rat
  seed : Nat
deriving DecidableEq, Repr

/-- The LlamaContext struct of llama_jni.cpp: model, ctx and sampler handles
(null modelled as none), the stored model path and the is_loaded flag. -/
structure LlamaContext where
  model : Option Nat
  ctx : Option Nat
  sampler : Option Sampler
  model_path : String
  is_loaded : Bool
deriving DecidableEq, Repr

/-- The state of a freshly constructed LlamaContext (nativeInit). -/
def freshSession : LlamaContext :=
  { model := none, ctx := none, sampler := none, model_path := "", is_loaded := false }

/-- Observable calls into the llama runtime, recorded in order. -/
inductive Event where
  | loadModelAttempt (path : String)
  | ctxCreateAttempt (model : Nat)
  | freeModel (h : Nat)
  | freeCtx (h : Nat)
  | freeSampler (h : Nat)
  | newSamplerChain (h : Nat) (temp : Rat) (seed : Nat)
  | tokenizeCall (cap : Nat)
  | kvCacheClear
  | decodePrompt (n : Nat)
  | sampleStep (i : Nat)
  | pieceCall (i : Nat) (cap : Nat)
  | decodeToken (i : Nat)
deriving DecidableEq, Repr

/-- Oracle for the runtime calls made by nativeLoadModel:
llama_load_model_from_file (model handle or null), llama_new_context_with_model
(ctx handle or null), and the handle llama_sampler_chain_init will return. -/
structure LoadRuntime where
  loadModel : String → Option Nat
  newCtx : Nat → Option Nat
  samplerHandle : Nat

/-- Java_com_wannaphong_hostai_LlamaModel_nativeLoadModel. The path is stored
into model_path first; the model pointer is overwritten with the load result
(null on failure); on context failure the just-loaded model is freed and
nulled; on success a fresh sampler chain (temp 0.7, default seed) overwrites
the sampler field and is_loaded is set. Returns the new state, the jboolean
result, and the runtime events. -/
def nativeLoadModel (rt : LoadRuntime) (s : LlamaContext) (path : String) :
    LlamaContext × Bool × List Event :=
  let s1 := { s with model_path := path }
  match rt.loadModel path with
  | none => ({ s1 with model := none }, false, [Event.loadModelAttempt path])
  | some m =>
    match rt.newCtx m with
    | none =>
      ({ s1 with model := none, ctx := none }, false,
        [Event.loadModelAttempt path, Event.ctxCreateAttempt m, Event.freeModel m])
    | some c =>
      ({ s1 with
          model := some m
          ctx := some c
          sampler := some ⟨rt.samplerHandle, defaultTemp, LLAMA_DEFAULT_SEED⟩
          is_loaded := true }, true,
        [Event.loadModelAttempt path, Event.ctxCreateAttempt m,
          Event.newSamplerChain rt.samplerHandle defaultTemp LLAMA_DEFAULT_SEED])

/-- Oracle for the runtime calls made by nativeGenerate. tokenize takes the
buffer capacity and returns the actual count or the negated required capacity;
sample, decodeTok and tokenToPiece are indexed by the loop iteration or token
because the loop is strictly sequential; tokenToPiece takes the token and the
buffer capacity and returns the count together with the bytes that would be
copied. samplerHandle is the handle of the chain rebuilt at the start of the
call. -/
structure GenRuntime where
  tokenize : Nat → Int
  prefillOk : Bool
  sample : Nat → Nat
  isEog : Nat → Bool
  tokenToPiece : Nat → Nat → Int × String
  decodeTok : Nat → Bool
  samplerHandle : Nat

/-- The token-buffer negotiation of the prompt tokenizer: first attempt with
capacity textLen + 256; on a negative count, resize to its magnitude and retry
once; a second negative count is failure. Returns the final token count (none
on failure) and the list of capacities attempted. -/
def tokenizeNegotiate (tok : Nat → Int) (textLen : Nat) : Option Nat × List Nat :=
  let cap0 := textLen + 256
  let r1 := tok cap0
  if r1 < 0 then
    let cap1 := (-r1).toNat
    let r2 := tok cap1
    if r2 < 0 then (none, [cap0, cap1])
    else (some r2.toNat, [cap0, cap1])
  else (some r1.toNat, [cap0])

/-- One token-to-piece conversion inside the loop: a 512-byte buffer first;
append the piece when 0 < n < 512; when n is at least 512, resize to n + 1 and
retry, appending whenever the retry count is positive; otherwise (n below or
equal to 0) the token contributes nothing and there is no retry. Returns the
appended text and the pieceCall events of iteration i. -/
def pieceStep (rt : GenRuntime) (i : Nat) : String × List Event :=
  let tok := rt.sample i
  let r := rt.tokenToPiece tok 512
  if 0 < r.1 ∧ r.1 < 512 then (r.2, [Event.pieceCall i 512])
  else if 512 ≤ r.1 then
    let r2 := rt.tokenToPiece tok (r.1 + 1).toNat
    ((if 0 < r2.1 then r2.2 else ""), [Event.pieceCall i 512, Event.pieceCall i (r.1 + 1).toNat])
  else ("", [Event.pieceCall i 512])

/-- Result of one iteration of the generation loop: the sampled token was the
end-of-generation marker (loop breaks before any piece or decode), or the
iteration produced its piece and its single-token decode succeeded (n_gen is
incremented and the loop continues), or the decode failed (loop breaks after
the piece was appended, without incrementing n_gen). -/
inductive StepRes where
  | halt_eog
  | proceed (piece : String)
  | halt_decode (piece : String)
deriving DecidableEq, Repr

/-- One iteration of the generation loop body: sample, end-of-generation
check, token-to-piece, single-token decode. -/
def genStep (rt : GenRuntime) (i : Nat) : StepRes × List Event :=
  if rt.isEog (rt.sample i) then (StepRes.halt_eog, [Event.sampleStep i])
  else
    let ps := pieceStep rt i
    if rt.decodeTok i then
      (StepRes.proceed ps.1, Event.sampleStep i :: ps.2 ++ [Event.decodeToken i])
    else
      (StepRes.halt_decode ps.1, Event.sampleStep i :: ps.2 ++ [Event.decodeToken i])

/-- The generation for-loop, with fuel = remaining iterations and i = current
iteration index. Returns the accumulated text, the n_gen counter contribution
and the events. -/
def genLoop (rt : GenRuntime) : Nat → Nat → String × Nat × List Event
  | 0, _ => ("", 0, [])
  | fuel + 1, i =>
    match genStep rt i with
    | (StepRes.halt_eog, ev) => ("", 0, ev)
    | (StepRes.halt_decode p, ev) => (p, 0, ev)
    | (StepRes.proceed p, ev) =>
      let r := genLoop rt fuel (i + 1)
      (p ++ r.1, r.2.1 + 1, ev ++ r.2.2)

/-- Error payload returned when generate is called while not loaded. -/
def errNotLoaded : String := "Error: Model not loaded"

/-- Error payload returned when tokenization fails after the retry. -/
def errTokenize : String := "Error: Failed to tokenize prompt"

/-- Error payload returned when the prompt prefill decode fails. -/
def errEval : String := "Error: Failed to evaluate prompt"

/-- Outcome of nativeGenerate: the session state after the call, the returned
string, the n_gen counter of the loop, whether the call ended at one of the
three early error returns, and the runtime events. -/
structure GenOutcome where
  state : LlamaContext
  text : String
  nGen : Nat
  err : Bool
  events : List Event
deriving DecidableEq, Repr

/-- Java_com_wannaphong_hostai_LlamaModel_nativeGenerate: not-loaded check;
unconditional free of the current sampler chain and rebuild with the requested
temperature and default seed; prompt tokenization with one resize retry;
kv-cache clear; prompt prefill decode; then the generation loop of at most
max_tokens iterations. -/
def nativeGenerate (rt : GenRuntime) (s : LlamaContext) (prompt : String)
    (maxTokens : Int) (temperature : Rat) : GenOutcome :=
  if s.is_loaded then
    let freeEv : List Event :=
      match s.sampler with
      | some sm => [Event.freeSampler sm.handle]
      | none => []
    let s1 := { s with sampler := some ⟨rt.samplerHandle, temperature, LLAMA_DEFAULT_SEED⟩ }
    let ev1 := freeEv ++ [Event.newSamplerChain rt.samplerHandle temperature LLAMA_DEFAULT_SEED]
    match tokenizeNegotiate rt.tokenize prompt.utf8ByteSize with
    | (none, caps) => ⟨s1, errTokenize, 0, true, ev1 ++ caps.map Event.tokenizeCall⟩
    | (some nTok, caps) =>
      let ev3 := ev1 ++ caps.map Event.tokenizeCall ++ [Event.kvCacheClear, Event.decodePrompt nTok]
      if rt.prefillOk then
        let r := genLoop rt maxTokens.toNat 0
        ⟨s1, r.1, r.2.1, false, ev3 ++ r.2.2⟩
      else ⟨s1, errEval, 0, true, ev3⟩
  else ⟨s, errNotLoaded, 0, true, []⟩

/-- The text contributed by iterations i, i+1, ..., i+k-1 of the loop, given
that each produced its piece. -/
def accFrom (rt : GenRuntime) (i : Nat) : Nat → String
  | 0 => ""
  | k + 1 => (pieceStep rt i).1 ++ accFrom rt (i + 1) k

/-- The events of iterations i, i+1, ..., i+k-1 of the loop, given that each
ran its full body. -/
def evFrom (rt : GenRuntime) (i : Nat) : Nat → List Event
  | 0 => []
  | k + 1 => (genStep rt i).2 ++ evFrom rt (i + 1) k

/-- The sampler events at the start of every loaded nativeGenerate call: the
free of the current chain followed by the build of the new one. -/
def samplerEvents (s : LlamaContext) (rt : GenRuntime) (temperature : Rat) : List Event :=
  (match s.sampler with
   | some sm => [Event.freeSampler sm.handle]
   | none => []) ++
  [Event.newSamplerChain rt.samplerHandle temperature LLAMA_DEFAULT_SEED]

/-- All events of a loaded nativeGenerate call up to and including the prompt
prefill, when tokenization attempted the capacities in caps and returned n
tokens. -/
def preEvents (s : LlamaContext) (rt : GenRuntime) (temperature : Rat)
    (caps : List Nat) (n : Nat) : List Event :=
  samplerEvents s rt temperature ++ caps.map Event.tokenizeCall ++
    [Event.kvCacheClear, Event.decodePrompt n]

lemma genStep_eog (rt : GenRuntime) (i : Nat) (h : rt.isEog (rt.sample i) = true) :
    genStep rt i = (StepRes.halt_eog, [Event.sampleStep i]) := by
  simp [genStep, h]

lemma genStep_proceed (rt : GenRuntime) (i : Nat)
    (h1 : rt.isEog (rt.sample i) = false) (h2 : rt.decodeTok i = true) :
    genStep rt i = (StepRes.proceed (pieceStep rt i).1,
      Event.sampleStep i :: (pieceStep rt i).2 ++ [Event.decodeToken i]) := by
  simp [genStep, h1, h2]

lemma genStep_halted (rt : GenRuntime) (i : Nat)
    (h1 : rt.isEog (rt.sample i) = false) (h2 : rt.decodeTok i = false) :
    genStep rt i = (StepRes.halt_decode (pieceStep rt i).1,
      Event.sampleStep i :: (pieceStep rt i).2 ++ [Event.decodeToken i]) := by
  simp [genStep, h1, h2]

lemma genLoop_nGen_le (rt : GenRuntime) (fuel : Nat) : ∀ i, (genLoop rt fuel i).2.1 ≤ fuel := by
  induction fuel with
  | zero => intro i; simp [genLoop]
  | succ f ih =>
    intro i
    rcases h : genStep rt i with ⟨sr, ev⟩
    cases sr with
    | halt_eog => simp [genLoop, h]
    | proceed p =>
      have := ih (i + 1)
      simp only [genLoop, h]
      omega
    | halt_decode p => simp [genLoop, h]

lemma genLoop_eog (rt : GenRuntime) (k : Nat) :
    ∀ fuel i, k < fuel →
    (∀ j, j < k → rt.isEog (rt.sample (i + j)) = false) →
    (∀ j, j < k → rt.decodeTok (i + j) = true) →
    rt.isEog (rt.sample (i + k)) = true →
    genLoop rt fuel i = (accFrom rt i k, k, evFrom rt i k ++ [Event.sampleStep (i + k)]) := by
  induction k with
  | zero =>
    intro fuel i hf _ _ heog
    obtain ⟨f, rfl⟩ : ∃ f, fuel = f + 1 := ⟨fuel - 1, by omega⟩
    have h := genStep_eog rt i (by simpa using heog)
    simp [genLoop, h, accFrom, evFrom]
  | succ k ih =>
    intro fuel i hf hno hde heog
    obtain ⟨f, rfl⟩ : ∃ f, fuel = f + 1 := ⟨fuel - 1, by omega⟩
    have h1 : rt.isEog (rt.sample i) = false := by simpa using hno 0 (Nat.succ_pos k)
    have h2 : rt.decodeTok i = true := by simpa using hde 0 (Nat.succ_pos k)
    have h := genStep_proceed rt i h1 h2
    have hno2 : ∀ j, j < k → rt.isEog (rt.sample (i + 1 + j)) = false := by
      intro j hj
      have e : i + (j + 1) = i + 1 + j := by omega
      have := hno (j + 1) (by omega)
      rwa [e] at this
    have hde2 : ∀ j, j < k → rt.decodeTok (i + 1 + j) = true := by
      intro j hj
      have e : i + (j + 1) = i + 1 + j := by omega
      have := hde (j + 1) (by omega)
      rwa [e] at this
    have heog2 : rt.isEog (rt.sample (i + 1 + k)) = true := by
      have e : i + (k + 1) = i + 1 + k := by omega
      rwa [e] at heog
    have ihh := ih f (i + 1) (by omega) hno2 hde2 heog2
    have e2 : i + 1 + k = i + (k + 1) := by omega
    simp [genLoop, h, ihh, accFrom, evFrom, e2]

lemma genLoop_decodeFail (rt : GenRuntime) (d : Nat) :
    ∀ fuel i, d < fuel →
    (∀ j, j ≤ d → rt.isEog (rt.sample (i + j)) = false) →
    (∀ j, j < d → rt.decodeTok (i + j) = true) →
    rt.decodeTok (i + d) = false →
    genLoop rt fuel i = (accFrom rt i (d + 1), d, evFrom rt i (d + 1)) := by
  induction d with
  | zero =>
    intro fuel i hf hno _ hdf
    obtain ⟨f, rfl⟩ : ∃ f, fuel = f + 1 := ⟨fuel - 1, by omega⟩
    have h1 : rt.isEog (rt.sample i) = false := by simpa using hno 0 (Nat.le_refl 0)
    have h := genStep_halted rt i h1 (by simpa using hdf)
    simp [genLoop, h, accFrom, evFrom]
  | succ d ih =>
    intro fuel i hf hno hde hdf
    obtain ⟨f, rfl⟩ : ∃ f, fuel = f + 1 := ⟨fuel - 1, by omega⟩
    have h1 : rt.isEog (rt.sample i) = false := by simpa using hno 0 (Nat.zero_le _)
    have h2 : rt.decodeTok i = true := by simpa using hde 0 (Nat.succ_pos d)
    have h := genStep_proceed rt i h1 h2
    have hno2 : ∀ j, j ≤ d → rt.isEog (rt.sample (i + 1 + j)) = false := by
      intro j hj
      have e : i + (j + 1) = i + 1 + j := by omega
      have := hno (j + 1) (by omega)
      rwa [e] at this
    have hde2 : ∀ j, j < d → rt.decodeTok (i + 1 + j) = true := by
      intro j hj
      have e : i + (j + 1) = i + 1 + j := by omega
      have := hde (j + 1) (by omega)
      rwa [e] at this
    have hdf2 : rt.decodeTok (i + 1 + d) = false := by
      have e : i + (d + 1) = i + 1 + d := by omega
      rwa [e] at hdf
    have ihh := ih f (i + 1) (by omega) hno2 hde2 hdf2
    simp [genLoop, h, ihh, accFrom, evFrom]

lemma nativeGenerate_run (rt : GenRuntime) (s : LlamaContext) (prompt : String)
    (maxTokens : Int) (temperature : Rat) (n : Nat) (caps : List Nat)
    (hl : s.is_loaded = true)
    (hneg : tokenizeNegotiate rt.tokenize prompt.utf8ByteSize = (some n, caps))
    (hpre : rt.prefillOk = true) :
    nativeGenerate rt s prompt maxTokens temperature =
      ⟨{ s with sampler := some ⟨rt.samplerHandle, temperature, LLAMA_DEFAULT_SEED⟩ },
        (genLoop rt maxTokens.toNat 0).1, (genLoop rt maxTokens.toNat 0).2.1, false,
        preEvents s rt temperature caps n ++ (genLoop rt maxTokens.toNat 0).2.2⟩ := by
  simp [nativeGenerate, hl, hneg, hpre, preEvents, samplerEvents]

lemma nativeGenerate_tokfail (rt : GenRuntime) (s : LlamaContext) (prompt : String)
    (maxTokens : Int) (temperature : Rat) (caps : List Nat)
    (hl : s.is_loaded = true)
    (hneg : tokenizeNegotiate rt.tokenize prompt.utf8ByteSize = (none, caps)) :
    nativeGenerate rt s prompt maxTokens temperature =
      ⟨{ s with sampler := some ⟨rt.samplerHandle, temperature, LLAMA_DEFAULT_SEED⟩ },
        errTokenize, 0, true,
        samplerEvents s rt temperature ++ caps.map Event.tokenizeCall⟩ := by
  simp [nativeGenerate, hl, hneg, samplerEvents]

lemma nativeGenerate_prefail (rt : GenRuntime) (s : LlamaContext) (prompt : String)
    (maxTokens : Int) (temperature : Rat) (n : Nat) (caps : List Nat)
    (hl : s.is_loaded = true)
    (hneg : tokenizeNegotiate rt.tokenize prompt.utf8ByteSize = (some n, caps))
    (hp : rt.prefillOk = false) :
    nativeGenerate rt s prompt maxTokens temperature =
      ⟨{ s with sampler := some ⟨rt.samplerHandle, temperature, LLAMA_DEFAULT_SEED⟩ },
        errEval, 0, true, preEvents s rt temperature caps n⟩ := by
  simp [nativeGenerate, hl, hneg, hp, preEvents, samplerEvents]

lemma sampleStep_not_mem_samplerEvents (s : LlamaContext) (rt : GenRuntime) (temperature : Rat)
    (i : Nat) : Event.sampleStep i ∉ samplerEvents s rt temperature := by
  rcases s with ⟨m, c, smp, p, l⟩
  cases smp <;> simp [samplerEvents]

lemma decodePrompt_not_mem_samplerEvents (s : LlamaContext) (rt : GenRuntime) (temperature : Rat)
    (m : Nat) : Event.decodePrompt m ∉ samplerEvents s rt temperature := by
  rcases s with ⟨mo, c, smp, p, l⟩
  cases smp <;> simp [samplerEvents]

lemma sampleStep_not_mem_preEvents (s : LlamaContext) (rt : GenRuntime) (temperature : Rat)
    (caps : List Nat) (n : Nat) (i : Nat) :
    Event.sampleStep i ∉ preEvents s rt temperature caps n := by
  rcases s with ⟨m, c, smp, p, l⟩
  cases smp <;> simp [preEvents, samplerEvents]

lemma decodeToken_not_mem_preEvents (s : LlamaContext) (rt : GenRuntime) (temperature : Rat)
    (caps : List Nat) (n : Nat) (m : Nat) :
    Event.decodeToken m ∉ preEvents s rt temperature caps n := by
  rcases s with ⟨mo, c, smp, p, l⟩
  cases smp <;> simp [preEvents, samplerEvents]

lemma decodeToken_not_mem_pieceStep (rt : GenRuntime) (j m : Nat) :
    Event.decodeToken m ∉ (pieceStep rt j).2 := by
  unfold pieceStep
  dsimp only
  split_ifs <;> simp

lemma decodeToken_mem_genStep (rt : GenRuntime) (j m : Nat)
    (h : Event.decodeToken m ∈ (genStep rt j).2) : m = j := by
  cases he : rt.isEog (rt.sample j) with
  | true =>
    rw [genStep_eog rt j he] at h
    simp at h
  | false =>
    cases hd : rt.decodeTok j with
    | true =>
      rw [genStep_proceed rt j he hd] at h
      simp at h
      rcases h with h | h
      · exact absurd h (decodeToken_not_mem_pieceStep rt j m)
      · exact h
    | false =>
      rw [genStep_halted rt j he hd] at h
      simp at h
      rcases h with h | h
      · exact absurd h (decodeToken_not_mem_pieceStep rt j m)
      · exact h

lemma decodeToken_mem_evFrom (rt : GenRuntime) (m : Nat) :
    ∀ k i, Event.decodeToken m ∈ evFrom rt i k → i ≤ m ∧ m < i + k := by
  intro k
  induction k with
  | zero => intro i h; simp [evFrom] at h
  | succ k ih =>
    intro i h
    simp only [evFrom, List.mem_append] at h
    rcases h with h | h
    · have := decodeToken_mem_genStep rt i m h
      omega
    · have := ih (i + 1) h
      omega

lemma pieceStep_nonpos (rt : GenRuntime) (i : Nat)
    (h : (rt.tokenToPiece (rt.sample i) 512).1 ≤ 0) :
    pieceStep rt i = ("", [Event.pieceCall i 512]) := by
  unfold pieceStep
  dsimp only
  split_ifs <;> first | rfl | omega

/-- A session in the LOADED state with model handle 1, context handle 2 and a
sampler chain at handle 3 configured with the default temperature. -/
def loadedS : LlamaContext :=
  ⟨some 1, some 2, some ⟨3, defaultTemp, LLAMA_DEFAULT_SEED⟩, "p", true⟩

/-- A load runtime that grants every request: model handle 10, context handle
20, sampler chain handle 30. -/
def grantRT : LoadRuntime := ⟨fun _ => some 10, fun _ => some 20, 30⟩

/-- A load runtime whose model load always fails. -/
def failRT : LoadRuntime := ⟨fun _ => none, fun _ => none, 0⟩

/-- A load runtime whose model load succeeds (handle 10) but whose context
creation always fails. -/
def ctxFailRT : LoadRuntime := ⟨fun _ => some 10, fun _ => none, 0⟩

/-- C1: the code of nativeLoadModel contains no release of prior resources:
reloading a LOADED session (model 1, context 2, sampler 3) with a runtime that
grants the new load succeeds and overwrites all three handles, yet the event
trace holds no freeModel 1, no freeCtx 2 and no freeSampler 3 — the previously
held handles are overwritten while still live, contradicting the claimed
unload-then-load behaviour. -/
theorem c1_reload_releases_nothing :
    (nativeLoadModel grantRT loadedS "m2").2.1 = true ∧
    (nativeLoadModel grantRT loadedS "m2").1.model = some 10 ∧
    (nativeLoadModel grantRT loadedS "m2").1.ctx = some 20 ∧
    Event.freeModel 1 ∉ (nativeLoadModel grantRT loadedS "m2").2.2 ∧
    Event.freeCtx 2 ∉ (nativeLoadModel grantRT loadedS "m2").2.2 ∧
    Event.freeSampler 3 ∉ (nativeLoadModel grantRT loadedS "m2").2.2 := by
  decide

/-- C2 counterexample: load with the empty path is not rejected: the model
load is attempted with the empty path, and with a runtime that grants it the
call succeeds — there is no InvalidArgument validation step. -/
theorem c2_empty_path_not_rejected :
    (nativeLoadModel grantRT freshSession "").2.1 = true ∧
    Event.loadModelAttempt "" ∈ (nativeLoadModel grantRT freshSession "").2.2 := by
  decide

/-- C2 amended: nativeLoadModel performs no validation of the path. For every
session and every path, empty or not, a runtime model load is attempted with
that path, and the call succeeds exactly when the runtime returns a model and
context creation on that model succeeds. -/
theorem c2_no_path_validation (rt : LoadRuntime) (s : LlamaContext) (path : String) :
    Event.loadModelAttempt path ∈ (nativeLoadModel rt s path).2.2 ∧
    ((nativeLoadModel rt s path).2.1 = true ↔
      ∃ m, rt.loadModel path = some m ∧ (rt.newCtx m).isSome = true) := by
  rcases h : rt.loadModel path with _ | m
  · simp [nativeLoadModel, h]
  · rcases h2 : rt.newCtx m with _ | c
    · simp [nativeLoadModel, h, h2]
    · simp [nativeLoadModel, h, h2]

/-- C3 counterexample: a failing load does not leave every session field at
its prior value: loading a bad path into a fresh session fails, yet the stored
model path has changed from the empty string to the requested path. -/
theorem c3_model_path_overwritten_on_failure :
    (nativeLoadModel failRT freshSession "bad").2.1 = false ∧
    (nativeLoadModel failRT freshSession "bad").1.model_path ≠ freshSession.model_path := by
  decide

/-- C3 amended: when nativeLoadModel fails at either step, the sampler handle
and the loaded flag keep their prior values and the model handle ends null,
but the stored model path is overwritten with the requested path before the
load attempt; consequently a session whose model and context handles were
already null (fresh or unloaded) keeps every field except the model path. -/
theorem c3_failure_state (rt : LoadRuntime) (s : LlamaContext) (path : String)
    (hfail : (nativeLoadModel rt s path).2.1 = false) :
    (nativeLoadModel rt s path).1.sampler = s.sampler ∧
    (nativeLoadModel rt s path).1.is_loaded = s.is_loaded ∧
    (nativeLoadModel rt s path).1.model = none ∧
    (nativeLoadModel rt s path).1.model_path = path ∧
    (s.model = none → s.ctx = none → (nativeLoadModel rt s path).1 = { s with model_path := path }) := by
  rcases h : rt.loadModel path with _ | m
  · refine ⟨?_, ?_, ?_, ?_, ?_⟩ <;> simp [nativeLoadModel, h]
    intro hm hc
    cases s
    simp_all
  · rcases h2 : rt.newCtx m with _ | c
    · refine ⟨?_, ?_, ?_, ?_, ?_⟩ <;> simp [nativeLoadModel, h, h2]
      intro hm hc
      cases s
      simp_all
    · exfalso
      simp [nativeLoadModel, h, h2] at hfail

/-- C3 witness: loading a bad path into a fresh session fails and leaves the
fresh session unchanged except for the stored model path. -/
theorem c3_failure_state_witness :
    (nativeLoadModel failRT freshSession "bad").1 = { freshSession with model_path := "bad" } := by
  exact (c3_failure_state failRT freshSession "bad" (by decide)).2.2.2.2 rfl rfl

/-- C8 counterexample: when a LOADED session is reloaded and context creation
fails, the call returns false but the session still reports loaded — the
session is not left in a not-loaded state as claimed. -/
theorem c8_reload_ctx_fail_reports_loaded :
    (nativeLoadModel ctxFailRT loadedS "m2").2.1 = false ∧
    (nativeLoadModel ctxFailRT loadedS "m2").1.is_loaded = true := by
  decide

/-- C8 amended: if the model loads (handle m) and context creation on it
fails, nativeLoadModel frees that just-loaded model, nulls the model handle
and returns false; the loaded flag is left at its prior value, so a session
that was not previously loaded remains not loaded, while a previously loaded
session still reports loaded. -/
theorem c8_ctx_fail_releases_model (rt : LoadRuntime) (s : LlamaContext) (path : String) (m : Nat)
    (hm : rt.loadModel path = some m) (hc : rt.newCtx m = none) :
    (nativeLoadModel rt s path).2.1 = false ∧
    (nativeLoadModel rt s path).1.model = none ∧
    Event.freeModel m ∈ (nativeLoadModel rt s path).2.2 ∧
    (nativeLoadModel rt s path).1.is_loaded = s.is_loaded := by
  simp [nativeLoadModel, hm, hc]

/-- C8 witness: a fresh session, a runtime granting the model but failing
context creation: the model is freed, its handle nulled, the call fails and
the session remains not loaded. -/
theorem c8_ctx_fail_releases_model_witness :
    (nativeLoadModel ctxFailRT freshSession "m").2.1 = false ∧
    (nativeLoadModel ctxFailRT freshSession "m").1.model = none ∧
    Event.freeModel 10 ∈ (nativeLoadModel ctxFailRT freshSession "m").2.2 ∧
    (nativeLoadModel ctxFailRT freshSession "m").1.is_loaded = false := by
  exact c8_ctx_fail_releases_model ctxFailRT freshSession "m" 10 rfl rfl

/-- A generate runtime that tokenizes everything to 2 tokens, samples token 9
every iteration and treats 9 as the end-of-generation marker, so the loop
stops immediately; the rebuilt sampler chain gets handle 4. -/
def sameTempRT : GenRuntime :=
  ⟨fun _ => 2, true, fun _ => 9, fun t => t == 9, fun _ _ => (1, "a"), fun _ => true, 4⟩

/-- A generate runtime that samples token 5 at iterations 0 and 1 and the
end-of-generation token 99 at iteration 2; every piece is the one-byte text
x and every decode succeeds. -/
def eogRT : GenRuntime :=
  ⟨fun _ => 2, true, fun i => if i < 2 then 5 else 99, fun t => t == 99,
    fun _ _ => (1, "x"), fun _ => true, 4⟩

/-- A generate runtime that never reaches end of generation, detokenizes every
token as the one-byte text y, and whose single-token decode succeeds only at
iteration 0, so the decode at iteration 1 fails. -/
def decFailRT : GenRuntime :=
  ⟨fun _ => 2, true, fun _ => 5, fun _ => false, fun _ _ => (1, "y"), fun i => i == 0, 4⟩

/-- A generate runtime whose token-to-piece conversion always reports count 0,
never reaches end of generation, and decodes successfully. -/
def npPieceRT : GenRuntime :=
  ⟨fun _ => 2, true, fun _ => 5, fun _ => false, fun _ _ => (0, ""), fun _ => true, 4⟩

/-- A generate runtime whose tokenizer returns a negative count at every
capacity, so tokenization fails even after the resize retry. -/
def tokFailRT : GenRuntime :=
  ⟨fun _ => -1, true, fun _ => 5, fun _ => false, fun _ _ => (1, "z"), fun _ => true, 4⟩

/-- C4 counterexample: generating with a temperature equal to the current
sampler configuration (the default 0.7) still frees the existing sampler
chain (handle 3) and builds a new one — the existing instance is not left
unchanged when the temperature does not differ. -/
theorem c4_rebuild_even_when_temperature_equal :
    loadedS.sampler = some ⟨3, defaultTemp, LLAMA_DEFAULT_SEED⟩ ∧
    Event.freeSampler 3 ∈ (nativeGenerate sameTempRT loadedS "hi" 3 defaultTemp).events ∧
    Event.newSamplerChain 4 defaultTemp LLAMA_DEFAULT_SEED ∈
      (nativeGenerate sameTempRT loadedS "hi" 3 defaultTemp).events := by
  decide

/-- C4 amended: nativeGenerate on a loaded session always releases the current
sampler pipeline and rebuilds it with the requested temperature and the
default-seeded selection stage, whether or not the requested temperature
differs from the current configuration. -/
theorem c4_always_rebuilds (rt : GenRuntime) (s : LlamaContext) (prompt : String)
    (maxTokens : Int) (temperature : Rat) (sm : Sampler)
    (hl : s.is_loaded = true) (hs : s.sampler = some sm) :
    Event.freeSampler sm.handle ∈ (nativeGenerate rt s prompt maxTokens temperature).events ∧
    Event.newSamplerChain rt.samplerHandle temperature LLAMA_DEFAULT_SEED ∈
      (nativeGenerate rt s prompt maxTokens temperature).events ∧
    (nativeGenerate rt s prompt maxTokens temperature).state.sampler =
      some ⟨rt.samplerHandle, temperature, LLAMA_DEFAULT_SEED⟩ := by
  rcases hneg : tokenizeNegotiate rt.tokenize prompt.utf8ByteSize with ⟨ores, caps⟩
  rcases ores with _ | n
  · rw [nativeGenerate_tokfail rt s prompt maxTokens temperature caps hl hneg]
    simp [samplerEvents, hs]
  · cases hp : rt.prefillOk with
    | false =>
      rw [nativeGenerate_prefail rt s prompt maxTokens temperature n caps hl hneg hp]
      simp [preEvents, samplerEvents, hs]
    | true =>
      rw [nativeGenerate_run rt s prompt maxTokens temperature n caps hl hneg hp]
      simp [preEvents, samplerEvents, hs]

/-- C4 witness: a loaded session with sampler handle 3 and a request at
temperature one half: the old chain is freed and the new chain carries the
requested temperature. -/
theorem c4_always_rebuilds_witness :
    Event.freeSampler 3 ∈ (nativeGenerate sameTempRT loadedS "hi" 3 (1/2)).events ∧
    Event.newSamplerChain 4 (1/2) LLAMA_DEFAULT_SEED ∈
      (nativeGenerate sameTempRT loadedS "hi" 3 (1/2)).events ∧
    (nativeGenerate sameTempRT loadedS "hi" 3 (1/2)).state.sampler =
      some ⟨4, 1/2, LLAMA_DEFAULT_SEED⟩ := by
  exact c4_always_rebuilds sameTempRT loadedS "hi" 3 (1/2)
    ⟨3, defaultTemp, LLAMA_DEFAULT_SEED⟩ rfl rfl

/-- C5: the tokenization protocol: the first attempt uses capacity
textLen + 256; a negative count causes exactly one retry at exactly the
magnitude of that count; a second negative count makes generation return the
tokenize error payload with no tokens generated, no sampling and no decode;
on success the resulting count is the count the runtime returned, not the
allocated capacity. -/
theorem c5_tokenize_protocol :
    (∀ (tok : Nat → Int) (textLen : Nat),
      (0 ≤ tok (textLen + 256) →
        tokenizeNegotiate tok textLen = (some (tok (textLen + 256)).toNat, [textLen + 256])) ∧
      (tok (textLen + 256) < 0 → 0 ≤ tok ((-tok (textLen + 256)).toNat) →
        tokenizeNegotiate tok textLen =
          (some (tok ((-tok (textLen + 256)).toNat)).toNat,
            [textLen + 256, (-tok (textLen + 256)).toNat])) ∧
      (tok (textLen + 256) < 0 → tok ((-tok (textLen + 256)).toNat) < 0 →
        tokenizeNegotiate tok textLen = (none, [textLen + 256, (-tok (textLen + 256)).toNat]))) ∧
    (∀ (rt : GenRuntime) (s : LlamaContext) (prompt : String) (maxTokens : Int)
      (temperature : Rat) (caps : List Nat),
      s.is_loaded = true →
      tokenizeNegotiate rt.tokenize prompt.utf8ByteSize = (none, caps) →
      (nativeGenerate rt s prompt maxTokens temperature).text = errTokenize ∧
      (nativeGenerate rt s prompt maxTokens temperature).err = true ∧
      (nativeGenerate rt s prompt maxTokens temperature).nGen = 0 ∧
      (∀ i, Event.sampleStep i ∉ (nativeGenerate rt s prompt maxTokens temperature).events) ∧
      (∀ m, Event.decodePrompt m ∉ (nativeGenerate rt s prompt maxTokens temperature).events)) := by
  constructor
  · intro tok textLen
    refine ⟨?_, ?_, ?_⟩
    · intro h
      unfold tokenizeNegotiate
      dsimp only
      rw [if_neg (by omega : ¬ tok (textLen + 256) < 0)]
    · intro h1 h2
      unfold tokenizeNegotiate
      dsimp only
      rw [if_pos h1, if_neg (by omega : ¬ tok ((-tok (textLen + 256)).toNat) < 0)]
    · intro h1 h2
      unfold tokenizeNegotiate
      dsimp only
      rw [if_pos h1, if_pos h2]
  · intro rt s prompt maxTokens temperature caps hl hneg
    rw [nativeGenerate_tokfail rt s prompt maxTokens temperature caps hl hneg]
    refine ⟨rfl, rfl, rfl, ?_, ?_⟩
    · intro i hmem
      rcases List.mem_append.mp hmem with h | h
      · exact sampleStep_not_mem_samplerEvents s rt temperature i h
      · simp at h
    · intro m hmem
      rcases List.mem_append.mp hmem with h | h
      · exact decodePrompt_not_mem_samplerEvents s rt temperature m h
      · simp at h

/-- C5 witness: a runtime whose tokenizer always returns -1: generation on a
loaded session returns the tokenize error payload with nothing generated, and
the negotiation attempted exactly the capacities 258 and 1. -/
theorem c5_tokenize_protocol_witness :
    tokenizeNegotiate tokFailRT.tokenize 2 = (none, [258, 1]) ∧
    (nativeGenerate tokFailRT loadedS "hi" 3 1).text = errTokenize ∧
    (nativeGenerate tokFailRT loadedS "hi" 3 1).err = true := by
  have h1 := (c5_tokenize_protocol.1 tokFailRT.tokenize 2).2.2 (by decide) (by decide)
  have h2 := c5_tokenize_protocol.2 tokFailRT loadedS "hi" 3 1 [258, 1] rfl (by decide)
  exact ⟨by simpa using h1, h2.1, h2.2.1⟩

/-- C6: generate never produces more than maxTokens tokens; and when the
sampler returns the end-of-generation token at iteration k below the budget,
after k successfully decoded tokens, exactly k tokens are produced, the text
is the concatenation of the pieces of the first k iterations (the
end-of-generation token contributes none), and no single-token decode is
submitted at iteration k. -/
theorem c6_budget_and_eog :
    (∀ (rt : GenRuntime) (s : LlamaContext) (prompt : String) (maxTokens : Int)
      (temperature : Rat),
      (nativeGenerate rt s prompt maxTokens temperature).nGen ≤ maxTokens.toNat) ∧
    (∀ (rt : GenRuntime) (s : LlamaContext) (prompt : String) (maxTokens : Int)
      (temperature : Rat) (k n : Nat) (caps : List Nat),
      s.is_loaded = true →
      tokenizeNegotiate rt.tokenize prompt.utf8ByteSize = (some n, caps) →
      rt.prefillOk = true →
      k < maxTokens.toNat →
      (∀ j, j < k → rt.isEog (rt.sample j) = false) →
      (∀ j, j < k → rt.decodeTok j = true) →
      rt.isEog (rt.sample k) = true →
      (nativeGenerate rt s prompt maxTokens temperature).nGen = k ∧
      (nativeGenerate rt s prompt maxTokens temperature).text = accFrom rt 0 k ∧
      Event.decodeToken k ∉ (nativeGenerate rt s prompt maxTokens temperature).events) := by
  constructor
  · intro rt s prompt maxTokens temperature
    cases hl : s.is_loaded with
    | false => simp [nativeGenerate, hl]
    | true =>
      rcases hneg : tokenizeNegotiate rt.tokenize prompt.utf8ByteSize with ⟨ores, caps⟩
      rcases ores with _ | n
      · rw [nativeGenerate_tokfail rt s prompt maxTokens temperature caps hl hneg]
        simp
      · cases hp : rt.prefillOk with
        | false =>
          rw [nativeGenerate_prefail rt s prompt maxTokens temperature n caps hl hneg hp]
          simp
        | true =>
          rw [nativeGenerate_run rt s prompt maxTokens temperature n caps hl hneg hp]
          exact genLoop_nGen_le rt maxTokens.toNat 0
  · intro rt s prompt maxTokens temperature k n caps hl hneg hp hk hno hde heog
    rw [nativeGenerate_run rt s prompt maxTokens temperature n caps hl hneg hp]
    have hloop := genLoop_eog rt k maxTokens.toNat 0 hk
      (fun j hj => by simpa using hno j hj)
      (fun j hj => by simpa using hde j hj)
      (by simpa using heog)
    refine ⟨by simp [hloop], by simp [hloop], ?_⟩
    simp only [hloop]
    intro hmem
    rcases List.mem_append.mp hmem with h | h
    · exact decodeToken_not_mem_preEvents s rt temperature caps n k h
    · rcases List.mem_append.mp h with h | h
      · have := decodeToken_mem_evFrom rt k k 0 h
        omega
      · simp at h

/-- C6 witness: the runtime that samples the end-of-generation token at
iteration 2 with a budget of 5: exactly 2 tokens are produced and no decode is
submitted at iteration 2. -/
theorem c6_budget_and_eog_witness :
    (nativeGenerate eogRT loadedS "hi" 5 1).nGen = 2 ∧
    Event.decodeToken 2 ∉ (nativeGenerate eogRT loadedS "hi" 5 1).events := by
  have h := c6_budget_and_eog.2 eogRT loadedS "hi" 5 1 2 2 [258] rfl (by decide) rfl
    (by decide) (by decide) (by decide) (by decide)
  exact ⟨h.1, h.2.2⟩

/-- C7: when the single-token decode fails at iteration d below the budget,
after d successful iterations and with no end-of-generation token sampled
through iteration d, generate stops and returns the text accumulated through
iteration d (including the piece of the token whose decode failed) as a
normal, non-error result, with n_gen = d. -/
theorem c7_decode_fail_truncates (rt : GenRuntime) (s : LlamaContext) (prompt : String)
    (maxTokens : Int) (temperature : Rat) (d n : Nat) (caps : List Nat)
    (hl : s.is_loaded = true)
    (hneg : tokenizeNegotiate rt.tokenize prompt.utf8ByteSize = (some n, caps))
    (hp : rt.prefillOk = true)
    (hd : d < maxTokens.toNat)
    (hno : ∀ j, j ≤ d → rt.isEog (rt.sample j) = false)
    (hde : ∀ j, j < d → rt.decodeTok j = true)
    (hdf : rt.decodeTok d = false) :
    (nativeGenerate rt s prompt maxTokens temperature).err = false ∧
    (nativeGenerate rt s prompt maxTokens temperature).text = accFrom rt 0 (d + 1) ∧
    (nativeGenerate rt s prompt maxTokens temperature).nGen = d := by
  rw [nativeGenerate_run rt s prompt maxTokens temperature n caps hl hneg hp]
  have hloop := genLoop_decodeFail rt d maxTokens.toNat 0 hd
    (fun j hj => by simpa using hno j hj)
    (fun j hj => by simpa using hde j hj)
    (by simpa using hdf)
  exact ⟨rfl, by simp [hloop], by simp [hloop]⟩

/-- C7 witness: the runtime whose decode fails at iteration 1: generation
returns the two accumulated pieces as a normal result with n_gen = 1. -/
theorem c7_decode_fail_truncates_witness :
    (nativeGenerate decFailRT loadedS "hi" 5 1).err = false ∧
    (nativeGenerate decFailRT loadedS "hi" 5 1).text = accFrom decFailRT 0 2 ∧
    (nativeGenerate decFailRT loadedS "hi" 5 1).nGen = 1 := by
  exact c7_decode_fail_truncates decFailRT loadedS "hi" 5 1 1 2 [258] rfl (by decide) rfl
    (by decide) (by decide) (by decide) (by decide)

/-- C9: on a loaded session whose prompt tokenizes and prefills successfully,
generate with maxTokens = 0 returns the empty string, produces no tokens, is
not an error, and performs no sampling step. -/
theorem c9_zero_budget (rt : GenRuntime) (s : LlamaContext) (prompt : String)
    (temperature : Rat) (n : Nat) (caps : List Nat)
    (hl : s.is_loaded = true)
    (hneg : tokenizeNegotiate rt.tokenize prompt.utf8ByteSize = (some n, caps))
    (hp : rt.prefillOk = true) :
    (nativeGenerate rt s prompt 0 temperature).text = "" ∧
    (nativeGenerate rt s prompt 0 temperature).nGen = 0 ∧
    (nativeGenerate rt s prompt 0 temperature).err = false ∧
    ∀ i, Event.sampleStep i ∉ (nativeGenerate rt s prompt 0 temperature).events := by
  rw [nativeGenerate_run rt s prompt 0 temperature n caps hl hneg hp]
  refine ⟨rfl, rfl, rfl, ?_⟩
  intro i hmem
  rcases List.mem_append.mp hmem with h | h
  · exact sampleStep_not_mem_preEvents s rt temperature caps n i h
  · have hz : (genLoop rt (Int.toNat 0) 0).2.2 = ([] : List Event) := rfl
    rw [hz] at h
    simp at h

/-- C9 witness: the end-of-generation runtime with a zero budget: empty text,
zero tokens, no error. -/
theorem c9_zero_budget_witness :
    (nativeGenerate eogRT loadedS "hi" 0 1).text = "" ∧
    (nativeGenerate eogRT loadedS "hi" 0 1).nGen = 0 ∧
    (nativeGenerate eogRT loadedS "hi" 0 1).err = false := by
  have h := c9_zero_budget eogRT loadedS "hi" 1 2 [258] rfl (by decide) rfl
  exact ⟨h.1, h.2.1, h.2.2.1⟩

/-- C10: when the first token-to-piece attempt for the sampled non-eog token
of iteration 0 reports a count of 0 or less, the token contributes the empty
text with no second attempt, yet its single-token decode is still submitted
and it is counted against the budget: n_gen is one more than the count of the
remaining iterations and the text is exactly the text of the remaining
iterations. -/
theorem c10_nonpositive_piece_skipped (rt : GenRuntime) (s : LlamaContext) (prompt : String)
    (maxTokens : Int) (temperature : Rat) (n : Nat) (caps : List Nat)
    (hl : s.is_loaded = true)
    (hneg : tokenizeNegotiate rt.tokenize prompt.utf8ByteSize = (some n, caps))
    (hp : rt.prefillOk = true)
    (hmt : 0 < maxTokens.toNat)
    (heog : rt.isEog (rt.sample 0) = false)
    (hn : (rt.tokenToPiece (rt.sample 0) 512).1 ≤ 0)
    (hdec : rt.decodeTok 0 = true) :
    pieceStep rt 0 = ("", [Event.pieceCall 0 512]) ∧
    (nativeGenerate rt s prompt maxTokens temperature).text =
      (genLoop rt (maxTokens.toNat - 1) 1).1 ∧
    (nativeGenerate rt s prompt maxTokens temperature).nGen =
      (genLoop rt (maxTokens.toNat - 1) 1).2.1 + 1 ∧
    Event.decodeToken 0 ∈ (nativeGenerate rt s prompt maxTokens temperature).events := by
  have hps := pieceStep_nonpos rt 0 hn
  rw [nativeGenerate_run rt s prompt maxTokens temperature n caps hl hneg hp]
  obtain ⟨f, hf⟩ : ∃ f, maxTokens.toNat = f + 1 := ⟨maxTokens.toNat - 1, by omega⟩
  have hstep := genStep_proceed rt 0 heog hdec
  have hloop : genLoop rt (f + 1) 0 =
      ((pieceStep rt 0).1 ++ (genLoop rt f 1).1,
        (genLoop rt f 1).2.1 + 1,
        (Event.sampleStep 0 :: (pieceStep rt 0).2 ++ [Event.decodeToken 0]) ++
          (genLoop rt f 1).2.2) := by
    simp [genLoop, hstep]
  rw [hf]
  have hf2 : f + 1 - 1 = f := rfl
  refine ⟨hps, ?_, ?_, ?_⟩
  · simp [hloop, hps, hf2]
  · simp [hloop, hf2]
  · simp [hloop]

/-- C10 witness: the runtime whose first piece attempt reports count 0 with a
budget of 2: iteration 0 contributes nothing and no retry happens, its decode
is still submitted, and both iterations are counted. -/
theorem c10_nonpositive_piece_skipped_witness :
    pieceStep npPieceRT 0 = ("", [Event.pieceCall 0 512]) ∧
    (nativeGenerate npPieceRT loadedS "hi" 2 1).nGen =
      (genLoop npPieceRT 1 1).2.1 + 1 ∧
    Event.decodeToken 0 ∈ (nativeGenerate npPieceRT loadedS "hi" 2 1).events := by
  have h := c10_nonpositive_piece_skipped npPieceRT loadedS "hi" 2 1 2 [258] rfl (by decide)
    rfl (by decide) (by decide) (by decide) (by decide)
  exact ⟨h.1, h.2.2.1, h.2.2.2⟩

end LlamaJni
